import Mathlib

/-
Verification of the KaliFinder search widget's client-side search/filter
state-management engine (src/components/KalifindSearch.tsx) against its
natural-language specification.  The definitions below are a shallow
embedding of the relevant functions of the source component: pure helpers
are translated directly, and the asynchronous request flow is modelled as
an explicit event machine whose steps mirror the code between suspension
points.
-/

namespace Kalifind

/-- Lower-casing of a string, modelling the JavaScript
`String.prototype.toLowerCase` used by the source.  Implemented as a
character-list map so that concrete instances reduce inside the
kernel. -/
def lowerStr (s : String) : String :=
  String.mk (s.data.map Char.toLower)

/-- Whitespace trimming at both ends, modelling the JavaScript
`String.prototype.trim` used by the source.  Implemented over the
character list so that concrete instances reduce inside the kernel. -/
def trimStr (s : String) : String :=
  String.mk (((s.data.dropWhile Char.isWhitespace).reverse.dropWhile
    Char.isWhitespace).reverse)

/-- Bucket key as delivered by the backend aggregation: a native boolean,
a number, a string, or absent (`key` undefined in the payload). -/
inductive BucketKey where
  | boolKey (b : Bool)
  | numKey (n : Int)
  | strKey (s : String)
  | noKey
deriving DecidableEq, Repr

/-- One facet bucket, after `extractFacetBuckets` has normalised the raw
payload entry (`doc_count` coerced to a number, defaulting to 0). -/
structure FacetBucket where
  key : BucketKey
  key_as_string : Option String
  doc_count : Nat
deriving DecidableEq, Repr

/-- Resolution of `key_as_string` to a boolean, mirroring the trailing
`if (bucket.key_as_string)` block of `resolveBooleanFacetValue`
(KalifindSearch.tsx lines 179-183).  A `some ""` value is falsy in
JavaScript, hence treated like an absent field. -/
def resolveKeyAsStringBool (kas : Option String) : Option Bool :=
  match kas with
  | some s =>
      if s = "" then none
      else
        let normalized := lowerStr s
        if normalized = "1" ∨ normalized = "true" then some true
        else if normalized = "0" ∨ normalized = "false" then some false
        else none
  | none => none

/-- Translation of `resolveBooleanFacetValue` (KalifindSearch.tsx lines
163-186).  Unrecognised keys fall through to the `key_as_string` check and
finally to `null` (here `none`). -/
def resolveBooleanFacetValue (bucket : FacetBucket) : Option Bool :=
  match bucket.key with
  | .boolKey b => some b
  | .numKey n =>
      if n = 1 then some true
      else if n = 0 then some false
      else resolveKeyAsStringBool bucket.key_as_string
  | .strKey s =>
      let normalized := lowerStr s
      if normalized = "1" ∨ normalized = "true" then some true
      else if normalized = "0" ∨ normalized = "false" then some false
      else resolveKeyAsStringBool bucket.key_as_string
  | .noKey => resolveKeyAsStringBool bucket.key_as_string

/-- Counting loop used for the `featured` and `insale` facets in
`fetchGlobalFacets` (KalifindSearch.tsx lines 895-929): the bucket whose
key resolves to `true` sets the first component, the one resolving to
`false` sets the second, and unresolved buckets are dropped.  A later
bucket with the same resolution overwrites the earlier one, exactly as
the source's mutable local variables do. -/
def countBooleanBuckets (buckets : List FacetBucket) : Nat × Nat :=
  buckets.foldl
    (fun acc bucket =>
      match resolveBooleanFacetValue bucket with
      | some true => (bucket.doc_count, acc.2)
      | some false => (acc.1, bucket.doc_count)
      | none => acc)
    (0, 0)

/-- Translation of `getFacetBucketKey` (KalifindSearch.tsx lines 150-161).
For numeric and boolean keys, a truthy `key_as_string` is preferred over
stringification; for a missing key the nullish coalescing `?? ''` is used,
so `some ""` yields `""`. -/
def getFacetBucketKey (bucket : FacetBucket) : String :=
  match bucket.key with
  | .strKey s => s
  | .numKey n =>
      match bucket.key_as_string with
      | some s => if s = "" then toString n else s
      | none => toString n
  | .boolKey b =>
      match bucket.key_as_string with
      | some s => if s = "" then (if b then "true" else "false") else s
      | none => if b then "true" else "false"
  | .noKey =>
      match bucket.key_as_string with
      | some s => s
      | none => ""

/-- Product record, restricted to the fields the search flow inspects:
an identifier, the optional `storeUrl` attached for cart operations, and
the numeric prices used for the filtered-max-price recomputation. -/
structure Product where
  pid : String
  storeUrl : Option String
  currentPrice : Option Nat
  originalPrice : Option Nat
deriving DecidableEq, Repr

/-- The spread `{ ...product, storeUrl: product.storeUrl || storeUrl }`
applied to every displayed product (KalifindSearch.tsx lines 1689-1692 and
2244-2247).  JavaScript `||` treats the empty string as falsy. -/
def withStoreUrl (storeUrl : String) (p : Product) : Product :=
  match p.storeUrl with
  | some s => if s = "" then { p with storeUrl := some storeUrl } else p
  | none => { p with storeUrl := some storeUrl }

/-- The complete user-selected filter set handled by the component:
eight string-list dimensions plus the price range pair. -/
structure FilterState where
  categories : List String
  brands : List String
  colors : List String
  sizes : List String
  tags : List String
  stockStatus : List String
  featuredProducts : List String
  saleStatus : List String
  priceRange : Nat × Nat
deriving DecidableEq, Repr

/-- The empty filter selection with a given full price range ceiling. -/
def emptyFilters (maxPrice : Nat) : FilterState :=
  ⟨[], [], [], [], [], [], [], [], (0, maxPrice)⟩

/-- The `hasActiveFilters` test of the zero-result fallback
(KalifindSearch.tsx lines 1609-1617) and the identical test of the
filtered-max-price recompute effect (lines 665-673): every non-price
dimension is checked for non-emptiness. -/
def hasActiveNonPriceFilters (f : FilterState) : Bool :=
  !f.categories.isEmpty || !f.brands.isEmpty || !f.colors.isEmpty ||
  !f.sizes.isEmpty || !f.tags.isEmpty || !f.stockStatus.isEmpty ||
  !f.featuredProducts.isEmpty || !f.saleStatus.isEmpty

/-- The `hasActiveDebouncedFilters` test of the search effect
(KalifindSearch.tsx lines 1741-1747).  Note that this one only inspects
categories, stock status, featured, sale, and the price range. -/
def hasActiveDebouncedFilters (f : FilterState) (maxPrice : Nat) : Bool :=
  !f.categories.isEmpty || !f.stockStatus.isEmpty ||
  !f.featuredProducts.isEmpty || !f.saleStatus.isEmpty ||
  (f.priceRange.1 > 0 || f.priceRange.2 < maxPrice)

/-- Facet payload of a search response.  `none` for a dimension models a
missing or malformed facet, for which `extractFacetBuckets` returns the
empty bucket list. -/
structure Facets where
  category : Option (List FacetBucket)
  brand : Option (List FacetBucket)
  color : Option (List FacetBucket)
  size : Option (List FacetBucket)
  tag : Option (List FacetBucket)
deriving DecidableEq, Repr

/-- Degradation of a missing or malformed facet to the empty bucket list,
the outer guard of `extractFacetBuckets` (KalifindSearch.tsx lines
116-124). -/
def extractBuckets (facet : Option (List FacetBucket)) : List FacetBucket :=
  match facet with
  | some buckets => buckets
  | none => []

/-- A typed search response (the `isSearchResponse` branch of the
handler): products, totals, pagination flag, optional message, the
recommended marker, and the optional facet payload. -/
structure SearchResponse where
  products : List Product
  total : Nat
  hasMore : Bool
  message : Option String
  showingRecommended : Bool
  facets : Option Facets
deriving DecidableEq, Repr

/-- Insert-or-replace on an association list, modelling the JavaScript
object assignment `counts[key] = doc_count`: an existing key keeps its
position and gets the new value, a new key is appended. -/
def upsert (m : List (String × Nat)) (k : String) (v : Nat) : List (String × Nat) :=
  match m with
  | [] => [(k, v)]
  | (k', v') :: rest => if k' = k then (k, v) :: rest else (k', v') :: upsert rest k v

/-- The count-map building loop shared by the category, brand and tag
facet handlers (for example KalifindSearch.tsx lines 1500-1510): empty
keys are skipped, every other bucket writes its `doc_count` under its
resolved key. -/
def buildCountMap (buckets : List FacetBucket) : List (String × Nat) :=
  buckets.foldl
    (fun m bucket =>
      let key := getFacetBucketKey bucket
      if key = "" then m else upsert m key bucket.doc_count)
    []

/-- Rounding a price up to the next multiple of `step`, the Lean form of
`Math.ceil(x / step) * step` on non-negative numbers. -/
def roundUpTo (step x : Nat) : Nat :=
  ((x + step - 1) / step) * step

/-- Maximum of a list of prices, 0 when empty (`Math.max(...prices)` is
only taken on a non-empty list in the source). -/
def maxPriceOf (prices : List Nat) : Nat :=
  prices.foldl max 0

/-- Prices considered for the filtered max-price recompute: for each
product `currentPrice ?? originalPrice`, kept when positive
(KalifindSearch.tsx lines 1563-1566). -/
def positivePrices (products : List Product) : List Nat :=
  (products.filterMap (fun p =>
    match p.currentPrice with
    | some c => some c
    | none => p.originalPrice)).filter (fun price => price > 0)

/-- The facet-related component state touched by a search response: the
reactive count maps and option lists, the five deliberately static
stock/featured/sale counters, and the filtered max price. -/
structure FacetState where
  categoryCounts : List (String × Nat)
  brandCounts : List (String × Nat)
  tagCounts : List (String × Nat)
  stockStatusCounts : List (String × Nat)
  featuredCount : Nat
  notFeaturedCount : Nat
  saleCount : Nat
  notSaleCount : Nat
  availableCategories : List String
  availableBrands : List String
  availableColors : List String
  availableSizes : List String
  availableTags : List String
  filteredMaxPrice : Nat
deriving DecidableEq, Repr

/-- Category count update of the facet block (KalifindSearch.tsx lines
1499-1510): when the extracted bucket list is non-empty, the reactive
category counts and available-category list are replaced. -/
def applyCategoryFacet (s : FacetState) (facets : Facets) : FacetState :=
  let buckets := extractBuckets facets.category
  if buckets.isEmpty then s
  else
    let counts := buildCountMap buckets
    { s with categoryCounts := counts, availableCategories := counts.map Prod.fst }

/-- Brand count update of the facet block (KalifindSearch.tsx lines
1512-1523). -/
def applyBrandFacet (s : FacetState) (facets : Facets) : FacetState :=
  let buckets := extractBuckets facets.brand
  if buckets.isEmpty then s
  else
    let counts := buildCountMap buckets
    { s with brandCounts := counts, availableBrands := counts.map Prod.fst }

/-- Colour option update of the facet block (KalifindSearch.tsx lines
1525-1535): only the list of available colours is replaced. -/
def applyColorFacet (s : FacetState) (facets : Facets) : FacetState :=
  let buckets := extractBuckets facets.color
  if buckets.isEmpty then s
  else
    { s with availableColors :=
        (buckets.map getFacetBucketKey).filter (fun key => key ≠ "") }

/-- Size option update of the facet block (KalifindSearch.tsx lines
1537-1547). -/
def applySizeFacet (s : FacetState) (facets : Facets) : FacetState :=
  let buckets := extractBuckets facets.size
  if buckets.isEmpty then s
  else
    { s with availableSizes :=
        (buckets.map getFacetBucketKey).filter (fun key => key ≠ "") }

/-- Tag count update of the facet block (KalifindSearch.tsx lines
1549-1560). -/
def applyTagFacet (s : FacetState) (facets : Facets) : FacetState :=
  let buckets := extractBuckets facets.tag
  if buckets.isEmpty then s
  else
    let counts := buildCountMap buckets
    { s with tagCounts := counts, availableTags := counts.map Prod.fst }

/-- Filtered max-price recompute of the facet block (KalifindSearch.tsx
lines 1562-1580): taken from the returned products' positive prices,
rounded up to the next multiple of 50. -/
def applyFilteredMaxPrice (s : FacetState) (products : List Product) : FacetState :=
  if products.isEmpty then s
  else
    let prices := positivePrices products
    if prices.isEmpty then s
    else { s with filteredMaxPrice := roundUpTo 50 (maxPriceOf prices) }

/-- The facet update block of `performSearch` for a successful response
(KalifindSearch.tsx lines 1486-1580), in source order: category, brand,
colour, size and tag updates followed by the filtered max-price
recompute; the stock-status, featured and sale counters are deliberately
not updated.  Everything is inside `if (result.facets)`, so a response
without a facet payload changes nothing. -/
def applyResponseFacets (s : FacetState) (resp : SearchResponse) : FacetState :=
  match resp.facets with
  | none => s
  | some facets =>
      applyFilteredMaxPrice
        (applyTagFacet
          (applySizeFacet
            (applyColorFacet
              (applyBrandFacet
                (applyCategoryFacet s facets) facets) facets) facets) facets)
        resp.products

/-- The five deliberately static count fields shown for the stock-status,
featured and sale facets. -/
def staticFacetCounts (s : FacetState) :
    List (String × Nat) × Nat × Nat × Nat × Nat :=
  (s.stockStatusCounts, s.featuredCount, s.notFeaturedCount, s.saleCount, s.notSaleCount)

/-- Replacement of the first occurrence of a character, the behaviour of
the JavaScript `String.prototype.replace` with a string pattern (it only
rewrites the first match). -/
def replaceFirstChar (a b : Char) : List Char → List Char
  | [] => []
  | c :: cs => if c = a then b :: cs else c :: replaceFirstChar a b cs

/-- The stock-status wording of the fallback message:
`lowerStr sCase().replace(' ', '-')` (KalifindSearch.tsx line 1659). -/
def stockStatusSlug (s : String) : String :=
  String.mk (replaceFirstChar ' ' '-' (lowerStr s).data)

/-- The applied-filter description list of the zero-result fallback
(KalifindSearch.tsx lines 1639-1664), in source order: categories,
brands, colours, sizes, stock status, featured, sale. -/
def appliedFilterDescriptions (f : FilterState) : List String :=
  (match f.categories with
   | [] => []
   | [c] => ["category \"" ++ c ++ "\""]
   | cs => [toString cs.length ++ " categories"]) ++
  (match f.brands with
   | [] => []
   | [b] => ["brand \"" ++ b ++ "\""]
   | bs => [toString bs.length ++ " brands"]) ++
  (if f.colors.isEmpty then [] else [toString f.colors.length ++ " color(s)"]) ++
  (if f.sizes.isEmpty then [] else [toString f.sizes.length ++ " size(s)"]) ++
  (if f.stockStatus.isEmpty then []
   else [String.intercalate ", " (f.stockStatus.map stockStatusSlug)]) ++
  (if f.featuredProducts.isEmpty then [] else ["featured products"]) ++
  (if f.saleStatus.isEmpty then [] else ["on sale"])

/-- The human-readable message attached by the zero-result fallback
(KalifindSearch.tsx lines 1666-1672). -/
def noResultsMessage (f : FilterState) : String :=
  let described := appliedFilterDescriptions f
  let filterDescription :=
    if described.isEmpty then "your filters" else String.intercalate ", " described
  "No results found for " ++ filterDescription ++ ". Showing popular products instead."

/-- The displayed result state written at the end of a completed search
(KalifindSearch.tsx lines 1694-1699). -/
structure DisplayResult where
  products : List Product
  total : Nat
  hasMore : Bool
  message : Option String
  showingRecommended : Bool
deriving DecidableEq, Repr

/-- Application of a search response to the displayed result state with
no fallback substitution: the products (each given a `storeUrl`), total,
pagination flag, message and recommended marker of the response. -/
def baseDisplay (storeUrl : String) (resp : SearchResponse) : DisplayResult :=
  { products := resp.products.map (withStoreUrl storeUrl)
    total := resp.total
    hasMore := resp.hasMore
    message := resp.message
    showingRecommended := resp.showingRecommended }

/-- Outcome of the zero-result fallback once its secondary request has
settled (KalifindSearch.tsx lines 1633-1678): a fallback response with at
least one product replaces the displayed list while the total is forced
to 0, `hasMore` to false and the recommended marker to true, with the
filter-naming message; a failed (`none`) or empty fallback leaves the
primary zero-result state as-is. -/
def fallbackSubstitute (storeUrl : String) (f : FilterState)
    (primary : SearchResponse) (fb : Option SearchResponse) : DisplayResult :=
  match fb with
  | some fallbackResult =>
      if fallbackResult.products.isEmpty then baseDisplay storeUrl primary
      else
        { products := fallbackResult.products.map (withStoreUrl storeUrl)
          total := 0
          hasMore := false
          message := some (noResultsMessage f)
          showingRecommended := true }
  | none => baseDisplay storeUrl primary

/-- Structured request parameters passed to the search service. -/
structure SearchParams where
  q : String
  page : Nat
  limit : Nat
  categories : Option (List String)
  colors : Option (List String)
  sizes : Option (List String)
  brands : Option (List String)
  tags : Option (List String)
  stockStatus : Option (List String)
  priceRange : Option (Nat × Nat)
  insale : Option String
  featured : Option String
  sortBy : Option String
deriving DecidableEq, Repr

/-- The featured filter value derivation (KalifindSearch.tsx lines
1394-1408, identical at 2178-2191): `"true"` when only `Featured` is
selected, `"false"` when only `Not Featured` is, nothing otherwise. -/
def featuredParam (f : FilterState) : Option String :=
  if f.featuredProducts.isEmpty then none
  else if f.featuredProducts.contains "Featured" &&
          !(f.featuredProducts.contains "Not Featured") then some "true"
  else if f.featuredProducts.contains "Not Featured" &&
          !(f.featuredProducts.contains "Featured") then some "false"
  else none

/-- The sale-status filter value derivation (KalifindSearch.tsx lines
1410-1424, identical at 2193-2206). -/
def insaleParam (f : FilterState) : Option String :=
  if f.saleStatus.isEmpty then none
  else if f.saleStatus.contains "On Sale" &&
          !(f.saleStatus.contains "Not On Sale") then some "true"
  else if f.saleStatus.contains "Not On Sale" &&
          !(f.saleStatus.contains "On Sale") then some "false"
  else none

/-- Lifting of a possibly-empty list to an optional request parameter:
the source only sends a dimension when its selection is non-empty. -/
def listParam (l : List String) : Option (List String) :=
  if l.isEmpty then none else some l

/-- The primary search request built by `performSearch`
(KalifindSearch.tsx lines 1427-1447): always page 1 with limit 12, the
non-empty filter dimensions, the price range only when the user narrowed
it below the full `[0, maxPrice]` span, and no explicit sort. -/
def performSearchParams (query : String) (f : FilterState) (maxPrice : Nat) : SearchParams :=
  { q := query
    page := 1
    limit := 12
    categories := listParam f.categories
    colors := listParam f.colors
    sizes := listParam f.sizes
    brands := listParam f.brands
    tags := listParam f.tags
    stockStatus := listParam f.stockStatus
    priceRange :=
      if f.priceRange.1 > 0 || f.priceRange.2 < maxPrice then some f.priceRange else none
    insale := insaleParam f
    featured := featuredParam f
    sortBy := none }

/-- The secondary unfiltered request issued by the zero-result fallback
(KalifindSearch.tsx lines 1625-1631): empty query, page 1, limit 12, no
filter dimensions, sorted by `featured`. -/
def fallbackRequestParams : SearchParams :=
  { q := ""
    page := 1
    limit := 12
    categories := none
    colors := none
    sizes := none
    brands := none
    tags := none
    stockStatus := none
    priceRange := none
    insale := none
    featured := none
    sortBy := some "featured" }

/-- The complete post-response pipeline of `performSearch` for a
non-superseded response (KalifindSearch.tsx lines 1606-1699), restricted
to the displayed result state: when the response has `total = 0` and a
non-price filter dimension is active, the fallback request is issued (the
second component reports its parameters) and its result substituted;
otherwise the response is applied directly.  The `fb` argument is the
response the fallback request would produce, `none` standing for a failed
secondary request. -/
def resolveSearchOutcome (storeUrl : String) (f : FilterState)
    (primary : SearchResponse) (fb : Option SearchResponse) :
    DisplayResult × Option SearchParams :=
  if primary.total = 0 ∧ hasActiveNonPriceFilters f then
    (fallbackSubstitute storeUrl f primary fb, some fallbackRequestParams)
  else
    (baseDisplay storeUrl primary, none)

/-- The pagination-related component state read and written by
`loadMoreProducts`. -/
structure PageState where
  filteredProducts : List Product
  displayedProducts : Nat
  currentPage : Nat
  hasMoreProducts : Bool
  isLoadingMore : Bool
deriving DecidableEq, Repr

/-- The load-more request built at KalifindSearch.tsx lines 2209-2225:
next page with limit 12, the non-empty filter dimensions, and the price
range always included (the conditional spread on an array is always
taken). -/
def loadMoreParams (query : String) (f : FilterState) (page : Nat) : SearchParams :=
  { q := query
    page := page
    limit := 12
    categories := listParam f.categories
    colors := listParam f.colors
    sizes := listParam f.sizes
    brands := listParam f.brands
    tags := listParam f.tags
    stockStatus := listParam f.stockStatus
    priceRange := some f.priceRange
    insale := insaleParam f
    featured := featuredParam f
    sortBy := none }

/-- One `loadMoreProducts` invocation (KalifindSearch.tsx lines
2166-2265) given the response its request would receive: guarded by
`isLoadingMore || !hasMoreProducts || !storeUrl`; an empty product page
only clears `hasMoreProducts`; otherwise the returned products are
appended after the existing list, the displayed count and page advance,
and `hasMoreProducts` is taken from the response.  The second component
reports the request that was issued, `none` when the guard skipped. -/
def loadMoreStep (storeUrl : Option String) (query : String) (f : FilterState)
    (s : PageState) (resp : SearchResponse) : PageState × Option SearchParams :=
  match storeUrl with
  | none => (s, none)
  | some url =>
      if s.isLoadingMore || !s.hasMoreProducts then (s, none)
      else
        let params := loadMoreParams query f (s.currentPage + 1)
        if resp.products.isEmpty then ({ s with hasMoreProducts := false }, some params)
        else
          ({ s with
              filteredProducts :=
                s.filteredProducts ++ resp.products.map (withStoreUrl url)
              displayedProducts := s.displayedProducts + resp.products.length
              currentPage := s.currentPage + 1
              hasMoreProducts := resp.hasMore }, some params)

/-- The result-related component state touched when a primary search
request fails. -/
structure ResultState where
  filteredProducts : List Product
  totalProducts : Nat
  displayedProducts : Nat
  currentPage : Nat
  hasMoreProducts : Bool
  isLoading : Bool
deriving DecidableEq, Repr

/-- The synchronous state reset performed when `performSearch` issues a
request (KalifindSearch.tsx lines 1367-1371): loading on, page 1,
`hasMoreProducts` optimistically true, displayed count zero, product list
cleared. -/
def preSearchReset (s : ResultState) : ResultState :=
  { s with
      isLoading := true
      currentPage := 1
      hasMoreProducts := true
      displayedProducts := 0
      filteredProducts := [] }

/-- The two failure classes distinguished by the catch block. -/
inductive SearchFailure where
  | abortError
  | otherError
deriving DecidableEq, Repr

/-- State after a primary search request was issued and then failed
(KalifindSearch.tsx lines 1700-1709): an abort error returns at once, any
other error clears the product list; the finally block always clears the
loading flag.  Neither branch touches `hasMoreProducts`, which keeps the
optimistic `true` written by `preSearchReset`. -/
def performSearchFailure (s : ResultState) (e : SearchFailure) : ResultState :=
  let issued := preSearchReset s
  match e with
  | .abortError => { issued with isLoading := false }
  | .otherError => { issued with filteredProducts := [], isLoading := false }

/-- Translation of `addToRecentSearches` (KalifindSearch.tsx lines
1905-1915): a non-empty trimmed query that is not already recorded is
prepended (after filtering out equal entries) and the list capped at 10;
otherwise the list is left untouched. -/
def addToRecentSearches (recentSearches : List String) (query : String) : List String :=
  if trimStr query ≠ "" ∧ ¬ recentSearches.contains (trimStr query) then
    (trimStr query :: recentSearches.filter (fun item => item ≠ trimStr query)).take 10
  else recentSearches

/-- A sequence of recorded searches starting from a given list. -/
def recordSearches (initial : List String) (queries : List String) : List String :=
  queries.foldl addToRecentSearches initial

/-- Modelled from the spec: the `useFilters` hook is not under `src/`
(only its call sites in KalifindSearch.tsx are), so its price operations
follow the spec's words.  Section 4.2: `resetPriceRange(maxPrice)`
re-clamps `priceRange` to `[0, maxPrice]` only. -/
def resetPriceRange (maxPrice : Nat) (f : FilterState) : FilterState :=
  { f with priceRange := (0, maxPrice) }

/-- Modelled from the spec: section 4.2, `updateFilter(dimension, value)`
is a wholesale replace, used for `priceRange`. -/
def updateFilterPriceRange (value : Nat × Nat) (f : FilterState) : FilterState :=
  { f with priceRange := value }

/-- The reactive filtered-max-price recompute effect (KalifindSearch.tsx
lines 663-682): when any non-price filter dimension is active, the price
range is reset to the full filtered range `[0, filteredMaxPrice]`. -/
def priceRangeRecompute (filteredMaxPrice : Nat) (f : FilterState) : FilterState :=
  if hasActiveNonPriceFilters f then updateFilterPriceRange (0, filteredMaxPrice) f
  else f

/-- JSON rendering of a string (quotation only; escaping inside the
value is irrelevant to the dedup comparison). -/
def jsonStr (s : String) : String :=
  "\x22" ++ s ++ "\x22"

/-- JSON rendering of a string array. -/
def jsonStrList (l : List String) : String :=
  "[" ++ String.intercalate "," (l.map jsonStr) ++ "]"

/-- The `JSON.stringify(debouncedFilters)` serialisation used as the
dedup key (KalifindSearch.tsx line 1778), rendering every dimension in
declaration order. -/
def serializeFilters (f : FilterState) : String :=
  "\x7b\x22categories\x22:" ++ jsonStrList f.categories ++
  ",\x22brands\x22:" ++ jsonStrList f.brands ++
  ",\x22colors\x22:" ++ jsonStrList f.colors ++
  ",\x22sizes\x22:" ++ jsonStrList f.sizes ++
  ",\x22tags\x22:" ++ jsonStrList f.tags ++
  ",\x22stockStatus\x22:" ++ jsonStrList f.stockStatus ++
  ",\x22featuredProducts\x22:" ++ jsonStrList f.featuredProducts ++
  ",\x22saleStatus\x22:" ++ jsonStrList f.saleStatus ++
  ",\x22priceRange\x22:[" ++ toString f.priceRange.1 ++ "," ++
  toString f.priceRange.2 ++ "]\x7d"

/-- The component state read by one run of the search effect.  React
state updates requested during a run only become visible to the next run;
the mutable refs (`lastSearchedQueryRef`, `lastSearchedFiltersRef`) are
also carried here since each run reads them once before writing. -/
structure SearchEffectState where
  storeUrl : Option String
  showRecommendations : Bool
  isInitialState : Bool
  hasSearched : Bool
  isSearchingFromSuggestion : Bool
  lastSearchedQuery : Option String
  lastSearchedFilters : String
  maxPrice : Nat
deriving DecidableEq, Repr

/-- One run of the search effect (KalifindSearch.tsx lines 1726-1818)
over the debounced query and filters: the guard chain (no store URL,
initial-state / recommendations skip with the transition-out special
case, suggestion-click skip, duplicate-search skip), then the dedup refs
update, then the dispatch — `performSearch('')` for an empty trimmed
query, `performSearch(query)` for a trimmed length of at least 3, and no
request for 1-2 character queries.  Returns the state for the next run
and the query passed to `performSearch` when one was issued. -/
def searchEffect (s : SearchEffectState) (debouncedSearchQuery : String)
    (debouncedFilters : FilterState) : SearchEffectState × Option String :=
  match s.storeUrl with
  | none => (s, none)
  | some _ =>
      let hasActive := hasActiveDebouncedFilters debouncedFilters s.maxPrice
      let queryEmpty := trimStr debouncedSearchQuery == ""
      let justTransitioned := hasActive && s.isInitialState && queryEmpty
      let sT :=
        if justTransitioned then
          { s with showRecommendations := false, isInitialState := false, hasSearched := true }
        else s
      if !justTransitioned &&
          (s.showRecommendations || (s.isInitialState && !hasActive && queryEmpty)) then
        (sT, none)
      else if s.isSearchingFromSuggestion then
        ({ sT with isSearchingFromSuggestion := false }, none)
      else
        let currentQuery := trimStr debouncedSearchQuery
        let currentFilters := serializeFilters debouncedFilters
        if s.lastSearchedQuery == some currentQuery &&
            s.lastSearchedFilters == currentFilters then
          (sT, none)
        else
          let sR := { sT with
            lastSearchedQuery := some currentQuery
            lastSearchedFilters := currentFilters }
          if queryEmpty then (sR, some "")
          else if 3 ≤ currentQuery.length then (sR, some debouncedSearchQuery)
          else (sR, none)

/-- Progress of one in-flight `fetchProducts` closure: waiting for its
primary response, or waiting for the zero-result fallback response after
a primary response with `total = 0` under active filters. -/
inductive TaskPhase where
  | awaitingPrimary
  | awaitingFallback (primary : SearchResponse)
deriving DecidableEq, Repr

/-- One in-flight search request: the generation captured at issue time
and the debounced filters its closure retains. -/
structure RaceTask where
  rid : Nat
  filters : FilterState
  phase : TaskPhase
deriving DecidableEq, Repr

/-- Interleaving state of the request sequencer: the latest issued
generation (`searchRequestIdRef`), the displayed result state, the facet
state, and the in-flight requests. -/
structure RaceState where
  gen : Nat
  display : DisplayResult
  facets : FacetState
  tasks : List RaceTask
deriving DecidableEq, Repr

/-- Events of the asynchronous search flow: issuing a request from the
effect, a primary response resolving, and a fallback response resolving
(`none` for a failed secondary request). -/
inductive RaceEvent where
  | issue (f : FilterState)
  | primaryReturn (rid : Nat) (resp : SearchResponse)
  | fallbackReturn (rid : Nat) (fresp : Option SearchResponse)
deriving DecidableEq, Repr

/-- One scheduler step of the search flow, mirroring the code between
suspension points of `performSearch` (KalifindSearch.tsx lines
1354-1713).  `issue` performs the synchronous pre-request reset and
increments the generation (lines 1366-1383).  `primaryReturn` is the code
after the first await: the generation check at line 1451 discards a
superseded response; otherwise the facet block (lines 1486-1580) runs,
the second check at line 1600 passes (nothing ran in between), and either
the fallback request is issued (total 0 with active non-price filters) or
the display state is applied (lines 1694-1699).  `fallbackReturn` is the
code after the fallback await (lines 1633-1699), which applies the
substituted or retained zero-result state with no further generation
check. -/
def raceStep (storeUrl : String) (s : RaceState) (e : RaceEvent) : RaceState :=
  match e with
  | .issue f =>
      { s with
          gen := s.gen + 1
          display := { s.display with products := [], hasMore := true }
          tasks := s.tasks ++ [⟨s.gen + 1, f, .awaitingPrimary⟩] }
  | .primaryReturn rid resp =>
      match s.tasks.find? (fun t => t.rid == rid) with
      | none => s
      | some task =>
          match task.phase with
          | .awaitingFallback _ => s
          | .awaitingPrimary =>
              if rid ≠ s.gen then
                { s with tasks := s.tasks.filter (fun t => t.rid != rid) }
              else
                let facets' := applyResponseFacets s.facets resp
                if resp.total = 0 ∧ hasActiveNonPriceFilters task.filters then
                  { s with
                      facets := facets'
                      tasks := s.tasks.map (fun t =>
                        if t.rid == rid then { t with phase := .awaitingFallback resp } else t) }
                else
                  { s with
                      facets := facets'
                      display := baseDisplay storeUrl resp
                      tasks := s.tasks.filter (fun t => t.rid != rid) }
  | .fallbackReturn rid fresp =>
      match s.tasks.find? (fun t => t.rid == rid) with
      | none => s
      | some task =>
          match task.phase with
          | .awaitingPrimary => s
          | .awaitingFallback primary =>
              { s with
                  display := fallbackSubstitute storeUrl task.filters primary fresp
                  tasks := s.tasks.filter (fun t => t.rid != rid) }

/-- Running a sequence of scheduler events. -/
def runRace (storeUrl : String) (s : RaceState) (events : List RaceEvent) : RaceState :=
  events.foldl (raceStep storeUrl) s

/-- Store URL used by the concrete scenarios. -/
def demoStoreUrl : String := "https://store.example"

/-- A numbered demo product already carrying a store URL. -/
def mkProduct (i : Nat) : Product :=
  ⟨toString i, some demoStoreUrl, none, none⟩

/-- Filter selection with the single brand "Nike" (the C3 scenario). -/
def nikeFilters : FilterState :=
  ⟨[], ["Nike"], [], [], [], [], [], [], (0, 1000)⟩

/-- A different filter selection used as the newer request of the race
scenario. -/
def adidasFilters : FilterState :=
  ⟨[], ["Adidas"], [], [], [], [], [], [], (0, 1000)⟩

/-- A zero-result primary response. -/
def zeroResponse : SearchResponse :=
  ⟨[], 0, false, none, false, none⟩

/-- The popular-products fallback response of the C3 scenario. -/
def fallbackResponse : SearchResponse :=
  ⟨[mkProduct 101, mkProduct 102], 5, true, none, false, none⟩

/-- The response of the newer (generation 2) request of the race
scenario. -/
def adidasResponse : SearchResponse :=
  ⟨[mkProduct 201], 1, false, none, false, none⟩

/-- Facet and display state at widget mount. -/
def initialFacetState : FacetState :=
  ⟨[], [], [], [], 0, 0, 0, 0, [], [], [], [], [], 10000⟩

/-- Displayed result state at widget mount (`hasMoreProducts` starts
true). -/
def initialDisplay : DisplayResult :=
  ⟨[], 0, true, none, false⟩

/-- Scheduler state at widget mount: generation 0, nothing in flight. -/
def initialRaceState : RaceState :=
  ⟨0, initialDisplay, initialFacetState, []⟩

/-- The first four events of the race scenario: request 1 under the Nike
filter gets zero results and issues its fallback; request 2 under the
Adidas filter is issued and its response applied. -/
def raceTracePrefix : List RaceEvent :=
  [.issue nikeFilters,
   .primaryReturn 1 zeroResponse,
   .issue adidasFilters,
   .primaryReturn 2 adidasResponse]

/-- A successful response whose facet payload is present but yields an
empty category bucket list (and no other facet dimensions). -/
def emptyCategoryResponse : SearchResponse :=
  ⟨[mkProduct 301], 3, false, none, false, some ⟨some [], none, none, none, none⟩⟩

/-- A facet state carrying a previously fetched category count. -/
def staleCategoryFacetState : FacetState :=
  ⟨[("Old", 7)], [], [], [("In Stock", 4)], 2, 3, 1, 5, ["Old"], [], [], [], [], 500⟩

/-- First page of the pagination scenario: products 0-11. -/
def pageOneProducts : List Product :=
  (List.range 12).map mkProduct

/-- Second page of the pagination scenario: products 12-23. -/
def pageTwoProducts : List Product :=
  ((List.range 12).map (fun i => 12 + i)).map mkProduct

/-- Pagination state after the page-1 response was applied: 12 products
displayed, page 1, more available, not currently loading. -/
def pageOneState : PageState :=
  ⟨pageOneProducts, 12, 1, true, false⟩

/-- The load-more response of the pagination scenario: 12 more products,
no further pages. -/
def pageTwoResponse : SearchResponse :=
  ⟨pageTwoProducts, 24, false, none, false, none⟩

/-- C8: boolean facet bucket keys resolve to true/false via native
boolean, numeric 1/0, or case-insensitive string forms "1"/"true" and
"0"/"false" (also trying `key_as_string`); unrecognised forms resolve to
unknown and are dropped from the count.  In particular, buckets
`key = "true", doc_count = 5` and `key = 0, doc_count = 3` resolve to
counts true 5 and false 3. -/
theorem c8_boolean_bucket_resolution :
    countBooleanBuckets
        [⟨.strKey "true", none, 5⟩, ⟨.numKey 0, none, 3⟩] = (5, 3) ∧
    (∀ (b : Bool) (kas : Option String) (d : Nat),
        resolveBooleanFacetValue ⟨.boolKey b, kas, d⟩ = some b) ∧
    (∀ (kas : Option String) (d : Nat),
        resolveBooleanFacetValue ⟨.numKey 1, kas, d⟩ = some true ∧
        resolveBooleanFacetValue ⟨.numKey 0, kas, d⟩ = some false) ∧
    (∀ (s : String) (kas : Option String) (d : Nat),
        (lowerStr s = "1" ∨ lowerStr s = "true" →
          resolveBooleanFacetValue ⟨.strKey s, kas, d⟩ = some true) ∧
        (lowerStr s = "0" ∨ lowerStr s = "false" →
          resolveBooleanFacetValue ⟨.strKey s, kas, d⟩ = some false)) ∧
    (∀ (bucket : FacetBucket) (s : String),
        bucket.key = .strKey s → bucket.key_as_string = none →
        lowerStr s ≠ "1" → lowerStr s ≠ "true" → lowerStr s ≠ "0" → lowerStr s ≠ "false" →
        resolveBooleanFacetValue bucket = none) ∧
    (∀ (buckets : List FacetBucket) (bucket : FacetBucket),
        resolveBooleanFacetValue bucket = none →
        countBooleanBuckets (buckets ++ [bucket]) = countBooleanBuckets buckets) := by
  refine ⟨by decide, ?_, ?_, ?_, ?_, ?_⟩
  · intro b kas d
    rfl
  · intro kas d
    exact ⟨rfl, rfl⟩
  · intro s kas d
    constructor
    · intro h
      rcases h with h | h <;> simp [resolveBooleanFacetValue, h]
    · intro h
      rcases h with h | h <;> simp [resolveBooleanFacetValue, h]
  · intro bucket s hk hkas h1 h2 h3 h4
    simp [resolveBooleanFacetValue, hk, hkas, resolveKeyAsStringBool, h1, h2, h3, h4]
  · intro buckets bucket h
    simp [countBooleanBuckets, List.foldl_append, h]

/-- Witness for C8 at concrete inputs: the case-insensitive string form
"TRUE" resolves to true. -/
theorem c8_boolean_bucket_resolution_witness :
    (lowerStr "TRUE" = "1" ∨ lowerStr "TRUE" = "true") ∧
    resolveBooleanFacetValue ⟨.strKey "TRUE", none, 7⟩ = some true :=
  ⟨Or.inr (by decide),
    (c8_boolean_bucket_resolution.2.2.2.1 "TRUE" none 7).1 (Or.inr (by decide))⟩

theorem addToRecentSearches_length_le (l : List String) (q : String)
    (h : l.length ≤ 10) : (addToRecentSearches l q).length ≤ 10 := by
  unfold addToRecentSearches
  split
  · simp
  · exact h

theorem addToRecentSearches_nodup (l : List String) (q : String)
    (h : l.Nodup) : (addToRecentSearches l q).Nodup := by
  unfold addToRecentSearches
  split
  · rename_i hguard
    have hnotmem : trimStr q ∉ l := by
      have h2 := hguard.2
      simp at h2
      exact h2
    refine (List.take_sublist 10 _).nodup ?_
    refine List.nodup_cons.mpr ⟨?_, h.filter _⟩
    intro hmem
    exact hnotmem (List.mem_filter.mp hmem).1
  · exact h

theorem recordSearches_invariant (queries : List String) (l : List String)
    (h1 : l.length ≤ 10) (h2 : l.Nodup) :
    (recordSearches l queries).length ≤ 10 ∧ (recordSearches l queries).Nodup := by
  induction queries generalizing l with
  | nil => exact ⟨h1, h2⟩
  | cons q rest ih =>
      exact ih (addToRecentSearches l q)
        (addToRecentSearches_length_le l q h1)
        (addToRecentSearches_nodup l q h2)

/-- C9 counterexample: recording the searches "a", "b", "a" in that order
leaves the list `["b", "a"]`.  The most recently recorded search is "a",
yet the list's first entry is "b" (a repeated search is skipped by the
membership guard instead of being moved to the front), so the list is not
ordered most-recent-first as the claim states. -/
theorem c9_most_recent_first_cex :
    recordSearches [] ["a", "b", "a"] = ["b", "a"] ∧
    (recordSearches [] ["a", "b", "a"]).head? = some "b" ∧ "b" ≠ "a" := by
  decide

/-- C9 (amended): after any sequence of recorded searches the list holds
at most 10 entries and no duplicate strings; a new non-empty search is
placed at the front, while a search already present leaves the list
unchanged — so the order is by recency of first recording, not of the
last search. -/
theorem c9_recent_searches_bounded_nodup :
    (∀ queries : List String,
        (recordSearches [] queries).length ≤ 10 ∧ (recordSearches [] queries).Nodup) ∧
    (∀ (l : List String) (q : String),
        trimStr q ≠ "" → l.contains (trimStr q) = false →
        (addToRecentSearches l q).head? = some (trimStr q)) ∧
    (∀ (l : List String) (q : String),
        l.contains (trimStr q) = true → addToRecentSearches l q = l) := by
  refine ⟨fun queries => recordSearches_invariant queries [] (by simp) (by simp), ?_, ?_⟩
  · intro l q h1 h2
    unfold addToRecentSearches
    rw [if_pos ⟨h1, by simpa using h2⟩]
    rfl
  · intro l q h
    unfold addToRecentSearches
    rw [if_neg]
    intro hguard
    exact hguard.2 (by simpa using h)

/-- Witness for C9 at concrete inputs: two recorded searches satisfy the
bound, and a fresh search " gamma " is prepended trimmed. -/
theorem c9_recent_searches_bounded_nodup_witness :
    (recordSearches [] ["alpha", "beta"]).length ≤ 10 ∧
    trimStr " gamma " ≠ "" ∧
    (["beta", "alpha"] : List String).contains (trimStr " gamma ") = false ∧
    (addToRecentSearches ["beta", "alpha"] " gamma ").head? = some (trimStr " gamma ") :=
  ⟨(c9_recent_searches_bounded_nodup.1 ["alpha", "beta"]).1,
    by decide, by decide,
    c9_recent_searches_bounded_nodup.2.1 ["beta", "alpha"] " gamma "
      (by decide) (by decide)⟩

/-- C1 (bug exhibit): responses are only generation-checked up to the
zero-result fallback's await, so a stale fallback application mutates
state on behalf of a superseded request.  Concretely: request 1 (Nike
filter) resolves with zero results while still current and issues its
fallback; request 2 (Adidas filter) is then issued and its response
applied, so the display shows request 2's product; when request 1's
fallback response finally resolves, it overwrites the display with the
fallback products and message even though the latest issued generation is
2 — contradicting the invariant that only the response whose tag equals
the latest issued generation may update the displayed result state. -/
theorem c1_stale_fallback_overwrites :
    (runRace demoStoreUrl initialRaceState raceTracePrefix).gen = 2 ∧
    (runRace demoStoreUrl initialRaceState raceTracePrefix).display.products =
      [mkProduct 201] ∧
    (runRace demoStoreUrl initialRaceState
        (raceTracePrefix ++ [.fallbackReturn 1 (some fallbackResponse)])).gen = 2 ∧
    (runRace demoStoreUrl initialRaceState
        (raceTracePrefix ++ [.fallbackReturn 1 (some fallbackResponse)])).display.products =
      [mkProduct 101, mkProduct 102] ∧
    (runRace demoStoreUrl initialRaceState
        (raceTracePrefix ++ [.fallbackReturn 1 (some fallbackResponse)])).display.message =
      some "No results found for brand \"Nike\". Showing popular products instead." ∧
    (runRace demoStoreUrl initialRaceState
        (raceTracePrefix ++ [.fallbackReturn 1 (some fallbackResponse)])).display ≠
      (runRace demoStoreUrl initialRaceState raceTracePrefix).display := by
  decide

/-- C3: with filters brands = ["Nike"], a primary response with total 0
and no products, and a fallback response carrying two products, the
displayed state shows the two fallback products with total forced to 0,
hasMore false, showingRecommended true and the filter-naming message; the
fallback request issued is unfiltered (empty query, page 1, limit 12,
sorted by featured), and it is issued exactly when the primary total is 0
and a non-price dimension is active; a failed or empty fallback leaves
the zero-result state as-is. -/
theorem c3_zero_result_fallback :
    (resolveSearchOutcome demoStoreUrl nikeFilters zeroResponse (some fallbackResponse)).1 =
      ⟨[mkProduct 101, mkProduct 102], 0, false,
        some "No results found for brand \"Nike\". Showing popular products instead.",
        true⟩ ∧
    (resolveSearchOutcome demoStoreUrl nikeFilters zeroResponse (some fallbackResponse)).2 =
      some fallbackRequestParams ∧
    (∀ (st : String) (f : FilterState) (primary : SearchResponse)
        (fb : Option SearchResponse),
        primary.total = 0 → hasActiveNonPriceFilters f = true →
        (resolveSearchOutcome st f primary fb).2 = some fallbackRequestParams) ∧
    (∀ (st : String) (f : FilterState) (primary : SearchResponse)
        (fb : Option SearchResponse),
        (primary.total ≠ 0 ∨ hasActiveNonPriceFilters f = false) →
        (resolveSearchOutcome st f primary fb) = (baseDisplay st primary, none)) ∧
    (resolveSearchOutcome demoStoreUrl nikeFilters zeroResponse none).1 =
      baseDisplay demoStoreUrl zeroResponse ∧
    (resolveSearchOutcome demoStoreUrl nikeFilters zeroResponse
        (some ⟨[], 9, true, none, false, none⟩)).1 =
      baseDisplay demoStoreUrl zeroResponse := by
  refine ⟨by decide, by decide, ?_, ?_, by decide, by decide⟩
  · intro st f primary fb h1 h2
    simp [resolveSearchOutcome, h1, h2]
  · intro st f primary fb h
    rcases h with h | h
    · simp [resolveSearchOutcome, h]
    · simp [resolveSearchOutcome, h]

/-- Witness for C3 at concrete inputs: the trigger condition holds in the
Nike scenario and the fallback request is the unfiltered one. -/
theorem c3_zero_result_fallback_witness :
    zeroResponse.total = 0 ∧ hasActiveNonPriceFilters nikeFilters = true ∧
    (resolveSearchOutcome demoStoreUrl nikeFilters zeroResponse none).2 =
      some fallbackRequestParams :=
  ⟨by decide, by decide,
    c3_zero_result_fallback.2.2.1 demoStoreUrl nikeFilters zeroResponse none
      (by decide) (by decide)⟩

theorem applyCategoryFacet_static (s : FacetState) (facets : Facets) :
    staticFacetCounts (applyCategoryFacet s facets) = staticFacetCounts s := by
  simp only [applyCategoryFacet]
  split <;> rfl

theorem applyBrandFacet_static (s : FacetState) (facets : Facets) :
    staticFacetCounts (applyBrandFacet s facets) = staticFacetCounts s := by
  simp only [applyBrandFacet]
  split <;> rfl

theorem applyColorFacet_static (s : FacetState) (facets : Facets) :
    staticFacetCounts (applyColorFacet s facets) = staticFacetCounts s := by
  simp only [applyColorFacet]
  split <;> rfl

theorem applySizeFacet_static (s : FacetState) (facets : Facets) :
    staticFacetCounts (applySizeFacet s facets) = staticFacetCounts s := by
  simp only [applySizeFacet]
  split <;> rfl

theorem applyTagFacet_static (s : FacetState) (facets : Facets) :
    staticFacetCounts (applyTagFacet s facets) = staticFacetCounts s := by
  simp only [applyTagFacet]
  split <;> rfl

theorem applyFilteredMaxPrice_static (s : FacetState) (products : List Product) :
    staticFacetCounts (applyFilteredMaxPrice s products) = staticFacetCounts s := by
  simp only [applyFilteredMaxPrice]
  split
  · rfl
  · split <;> rfl

theorem applyResponseFacets_static (s : FacetState) (resp : SearchResponse) :
    staticFacetCounts (applyResponseFacets s resp) = staticFacetCounts s := by
  unfold applyResponseFacets
  cases resp.facets with
  | none => rfl
  | some facets =>
      rw [applyFilteredMaxPrice_static, applyTagFacet_static, applySizeFacet_static,
        applyColorFacet_static, applyBrandFacet_static, applyCategoryFacet_static]

theorem foldl_applyResponseFacets_static (resps : List SearchResponse) (s : FacetState) :
    staticFacetCounts (resps.foldl applyResponseFacets s) = staticFacetCounts s := by
  induction resps generalizing s with
  | nil => rfl
  | cons resp rest ih =>
      rw [List.foldl_cons, ih, applyResponseFacets_static]

theorem applyBrandFacet_categoryCounts (s : FacetState) (facets : Facets) :
    (applyBrandFacet s facets).categoryCounts = s.categoryCounts := by
  simp only [applyBrandFacet]
  split <;> rfl

theorem applyColorFacet_categoryCounts (s : FacetState) (facets : Facets) :
    (applyColorFacet s facets).categoryCounts = s.categoryCounts := by
  simp only [applyColorFacet]
  split <;> rfl

theorem applySizeFacet_categoryCounts (s : FacetState) (facets : Facets) :
    (applySizeFacet s facets).categoryCounts = s.categoryCounts := by
  simp only [applySizeFacet]
  split <;> rfl

theorem applyTagFacet_categoryCounts (s : FacetState) (facets : Facets) :
    (applyTagFacet s facets).categoryCounts = s.categoryCounts := by
  simp only [applyTagFacet]
  split <;> rfl

theorem applyFilteredMaxPrice_categoryCounts (s : FacetState) (products : List Product) :
    (applyFilteredMaxPrice s products).categoryCounts = s.categoryCounts := by
  simp only [applyFilteredMaxPrice]
  split
  · rfl
  · split <;> rfl

theorem applyCategoryFacet_brandCounts (s : FacetState) (facets : Facets) :
    (applyCategoryFacet s facets).brandCounts = s.brandCounts := by
  simp only [applyCategoryFacet]
  split <;> rfl

theorem applyColorFacet_brandCounts (s : FacetState) (facets : Facets) :
    (applyColorFacet s facets).brandCounts = s.brandCounts := by
  simp only [applyColorFacet]
  split <;> rfl

theorem applySizeFacet_brandCounts (s : FacetState) (facets : Facets) :
    (applySizeFacet s facets).brandCounts = s.brandCounts := by
  simp only [applySizeFacet]
  split <;> rfl

theorem applyTagFacet_brandCounts (s : FacetState) (facets : Facets) :
    (applyTagFacet s facets).brandCounts = s.brandCounts := by
  simp only [applyTagFacet]
  split <;> rfl

theorem applyFilteredMaxPrice_brandCounts (s : FacetState) (products : List Product) :
    (applyFilteredMaxPrice s products).brandCounts = s.brandCounts := by
  simp only [applyFilteredMaxPrice]
  split
  · rfl
  · split <;> rfl

theorem applyCategoryFacet_tagCounts (s : FacetState) (facets : Facets) :
    (applyCategoryFacet s facets).tagCounts = s.tagCounts := by
  simp only [applyCategoryFacet]
  split <;> rfl

theorem applyBrandFacet_tagCounts (s : FacetState) (facets : Facets) :
    (applyBrandFacet s facets).tagCounts = s.tagCounts := by
  simp only [applyBrandFacet]
  split <;> rfl

theorem applyColorFacet_tagCounts (s : FacetState) (facets : Facets) :
    (applyColorFacet s facets).tagCounts = s.tagCounts := by
  simp only [applyColorFacet]
  split <;> rfl

theorem applySizeFacet_tagCounts (s : FacetState) (facets : Facets) :
    (applySizeFacet s facets).tagCounts = s.tagCounts := by
  simp only [applySizeFacet]
  split <;> rfl

theorem applyFilteredMaxPrice_tagCounts (s : FacetState) (products : List Product) :
    (applyFilteredMaxPrice s products).tagCounts = s.tagCounts := by
  simp only [applyFilteredMaxPrice]
  split
  · rfl
  · split <;> rfl

theorem applyCategoryFacet_counts_of_nonempty (s : FacetState) (facets : Facets)
    (h : extractBuckets facets.category ≠ []) :
    (applyCategoryFacet s facets).categoryCounts =
      buildCountMap (extractBuckets facets.category) := by
  simp only [applyCategoryFacet]
  rw [if_neg]
  simpa using h

theorem applyCategoryFacet_counts_of_empty (s : FacetState) (facets : Facets)
    (h : extractBuckets facets.category = []) :
    (applyCategoryFacet s facets).categoryCounts = s.categoryCounts := by
  simp [applyCategoryFacet, h]

theorem applyBrandFacet_counts_of_nonempty (s : FacetState) (facets : Facets)
    (h : extractBuckets facets.brand ≠ []) :
    (applyBrandFacet s facets).brandCounts =
      buildCountMap (extractBuckets facets.brand) := by
  simp only [applyBrandFacet]
  rw [if_neg]
  simpa using h

theorem applyTagFacet_counts_of_nonempty (s : FacetState) (facets : Facets)
    (h : extractBuckets facets.tag ≠ []) :
    (applyTagFacet s facets).tagCounts =
      buildCountMap (extractBuckets facets.tag) := by
  simp only [applyTagFacet]
  rw [if_neg]
  simpa using h

/-- C4 counterexample: a successful response whose facet payload yields
an empty category bucket list leaves the previous reactive category
counts in place instead of replacing them with the response's (empty)
counts, so "category/brand/tag counts are replaced from each successful
response" fails as stated. -/
theorem c4_category_counts_not_replaced_cex :
    (applyResponseFacets staleCategoryFacetState emptyCategoryResponse).categoryCounts =
      [("Old", 7)] ∧
    buildCountMap (extractBuckets (some [])) = [] ∧
    ([("Old", 7)] : List (String × Nat)) ≠ [] := by
  decide

/-- C4 (amended): after any sequence of successful search responses the
five static fields — stockStatusCounts, featuredCount, notFeaturedCount,
saleCount, notSaleCount — are exactly their values before the sequence
(search responses never touch them); category, brand and tag counts are
replaced from each successful response whose payload yields a non-empty
bucket list for that dimension, and retained otherwise. -/
theorem c4_static_counts_frame :
    (∀ (s : FacetState) (resps : List SearchResponse),
        staticFacetCounts (resps.foldl applyResponseFacets s) = staticFacetCounts s) ∧
    (∀ (s : FacetState) (resp : SearchResponse) (facets : Facets),
        resp.facets = some facets → extractBuckets facets.category ≠ [] →
        (applyResponseFacets s resp).categoryCounts =
          buildCountMap (extractBuckets facets.category)) ∧
    (∀ (s : FacetState) (resp : SearchResponse) (facets : Facets),
        resp.facets = some facets → extractBuckets facets.brand ≠ [] →
        (applyResponseFacets s resp).brandCounts =
          buildCountMap (extractBuckets facets.brand)) ∧
    (∀ (s : FacetState) (resp : SearchResponse) (facets : Facets),
        resp.facets = some facets → extractBuckets facets.tag ≠ [] →
        (applyResponseFacets s resp).tagCounts =
          buildCountMap (extractBuckets facets.tag)) ∧
    (∀ (s : FacetState) (resp : SearchResponse) (facets : Facets),
        resp.facets = some facets → extractBuckets facets.category = [] →
        (applyResponseFacets s resp).categoryCounts = s.categoryCounts) := by
  refine ⟨?_, ?_, ?_, ?_, ?_⟩
  · intro s resps
    exact foldl_applyResponseFacets_static resps s
  · intro s resp facets hf hne
    simp only [applyResponseFacets, hf]
    rw [applyFilteredMaxPrice_categoryCounts, applyTagFacet_categoryCounts,
      applySizeFacet_categoryCounts, applyColorFacet_categoryCounts,
      applyBrandFacet_categoryCounts, applyCategoryFacet_counts_of_nonempty s facets hne]
  · intro s resp facets hf hne
    simp only [applyResponseFacets, hf]
    rw [applyFilteredMaxPrice_brandCounts, applyTagFacet_brandCounts,
      applySizeFacet_brandCounts, applyColorFacet_brandCounts,
      applyBrandFacet_counts_of_nonempty _ facets hne]
  · intro s resp facets hf hne
    simp only [applyResponseFacets, hf]
    rw [applyFilteredMaxPrice_tagCounts, applyTagFacet_counts_of_nonempty _ facets hne]
  · intro s resp facets hf hempty
    simp only [applyResponseFacets, hf]
    rw [applyFilteredMaxPrice_categoryCounts, applyTagFacet_categoryCounts,
      applySizeFacet_categoryCounts, applyColorFacet_categoryCounts,
      applyBrandFacet_categoryCounts, applyCategoryFacet_counts_of_empty s facets hempty]

/-- Witness for C4 at concrete inputs: a response carrying one category
bucket has its category counts replaced wholesale. -/
theorem c4_static_counts_frame_witness :
    (some (⟨some [⟨.strKey "Shoes", none, 4⟩], none, none, none, none⟩ : Facets) =
      some (⟨some [⟨.strKey "Shoes", none, 4⟩], none, none, none, none⟩ : Facets)) ∧
    extractBuckets (some [⟨.strKey "Shoes", none, 4⟩]) ≠ [] ∧
    (applyResponseFacets staleCategoryFacetState
        ⟨[], 4, false, none, false,
          some ⟨some [⟨.strKey "Shoes", none, 4⟩], none, none, none, none⟩⟩).categoryCounts =
      buildCountMap (extractBuckets (some [⟨.strKey "Shoes", none, 4⟩])) :=
  ⟨rfl, by decide,
    c4_static_counts_frame.2.1 staleCategoryFacetState
      ⟨[], 4, false, none, false,
        some ⟨some [⟨.strKey "Shoes", none, 4⟩], none, none, none, none⟩⟩
      ⟨some [⟨.strKey "Shoes", none, 4⟩], none, none, none, none⟩ rfl (by decide)⟩

/-- C5: load-more is guarded by not-loading and has-more; when it runs it
requests the next page with filters identical to the current debounced
set, and appends the returned products after the existing list with
`hasMoreProducts` taken from the response.  In the concrete scenario — a
page-1 state holding 12 products with more available, and a load-more
response of 12 further products with `hasMore` false — the final list
holds the 24 products in original-then-appended order and
`hasMoreProducts` is false. -/
theorem c5_load_more_pagination :
    (∀ (st : Option String) (q : String) (f : FilterState) (s : PageState)
        (resp : SearchResponse),
        s.isLoadingMore = true ∨ s.hasMoreProducts = false →
        loadMoreStep st q f s resp = (s, none)) ∧
    (∀ (url q : String) (f : FilterState) (s : PageState) (resp : SearchResponse)
        (params : SearchParams),
        (loadMoreStep (some url) q f s resp).2 = some params →
        params.q = q ∧
        params.page = s.currentPage + 1 ∧
        params.categories = listParam f.categories ∧
        params.colors = listParam f.colors ∧
        params.sizes = listParam f.sizes ∧
        params.brands = listParam f.brands ∧
        params.tags = listParam f.tags ∧
        params.stockStatus = listParam f.stockStatus ∧
        params.priceRange = some f.priceRange ∧
        params.insale = insaleParam f ∧
        params.featured = featuredParam f) ∧
    (∀ (url q : String) (f : FilterState) (s : PageState) (resp : SearchResponse),
        s.isLoadingMore = false → s.hasMoreProducts = true → resp.products ≠ [] →
        (loadMoreStep (some url) q f s resp).1.filteredProducts =
          s.filteredProducts ++ resp.products.map (withStoreUrl url) ∧
        (loadMoreStep (some url) q f s resp).1.hasMoreProducts = resp.hasMore ∧
        (loadMoreStep (some url) q f s resp).1.currentPage = s.currentPage + 1) ∧
    ((loadMoreStep (some demoStoreUrl) "" (emptyFilters 10000) pageOneState
        pageTwoResponse).1.filteredProducts = pageOneProducts ++ pageTwoProducts ∧
      (loadMoreStep (some demoStoreUrl) "" (emptyFilters 10000) pageOneState
        pageTwoResponse).1.filteredProducts.length = 24 ∧
      (loadMoreStep (some demoStoreUrl) "" (emptyFilters 10000) pageOneState
        pageTwoResponse).1.hasMoreProducts = false) := by
  refine ⟨?_, ?_, ?_, by decide⟩
  · intro st q f s resp h
    cases st with
    | none => rfl
    | some url =>
        rcases h with h | h <;> simp [loadMoreStep, h]
  · intro url q f s resp params h
    simp only [loadMoreStep] at h
    split at h
    · exact absurd h (by simp)
    · split at h <;>
        · cases Option.some.inj h
          exact ⟨rfl, rfl, rfl, rfl, rfl, rfl, rfl, rfl, rfl, rfl, rfl⟩
  · intro url q f s resp h1 h2 h3
    simp [loadMoreStep, h1, h2, h3]

/-- Witness for C5 at concrete inputs: the guard skips a loading state,
the issued request targets page 2, and a non-empty response appends. -/
theorem c5_load_more_pagination_witness :
    ((⟨pageOneProducts, 12, 1, true, true⟩ : PageState).isLoadingMore = true ∨
      (⟨pageOneProducts, 12, 1, true, true⟩ : PageState).hasMoreProducts = false) ∧
    loadMoreStep (some demoStoreUrl) "" (emptyFilters 10000)
      ⟨pageOneProducts, 12, 1, true, true⟩ pageTwoResponse =
      (⟨pageOneProducts, 12, 1, true, true⟩, none) ∧
    pageOneState.isLoadingMore = false ∧ pageOneState.hasMoreProducts = true ∧
    pageTwoResponse.products ≠ [] ∧
    (loadMoreStep (some demoStoreUrl) "" (emptyFilters 10000) pageOneState
      pageTwoResponse).1.currentPage = pageOneState.currentPage + 1 :=
  ⟨Or.inl rfl,
    c5_load_more_pagination.1 (some demoStoreUrl) "" (emptyFilters 10000)
      ⟨pageOneProducts, 12, 1, true, true⟩ pageTwoResponse (Or.inl rfl),
    rfl, rfl, by decide,
    (c5_load_more_pagination.2.2.1 demoStoreUrl "" (emptyFilters 10000) pageOneState
      pageTwoResponse rfl rfl (by decide)).2.2⟩

/-- C6 counterexample: after a non-abort failure the product list is
cleared but `hasMoreProducts` is the optimistic `true` written by the
pre-request reset — the state does assume that more results may exist,
so the claim's conservative-flag clause fails. -/
theorem c6_hasmore_not_conservative_cex :
    (performSearchFailure ⟨[mkProduct 1], 5, 1, 3, false, false⟩ .otherError).filteredProducts
      = [] ∧
    (performSearchFailure ⟨[mkProduct 1], 5, 1, 3, false, false⟩ .otherError).hasMoreProducts
      = true ∧
    (performSearchFailure ⟨[mkProduct 1], 5, 1, 3, false, false⟩ .otherError).hasMoreProducts
      ≠ false := by
  decide

/-- C6 (amended): abort errors are swallowed — beyond the synchronous
pre-request reset and the finally-block loading flag, the catch performs
no state mutation; any other error clears the displayed result list; in
both cases `hasMoreProducts` keeps the optimistic `true` set before the
request was issued, so the post-failure state still claims more results
may exist. -/
theorem c6_error_handling :
    ∀ s : ResultState,
      performSearchFailure s .abortError = { preSearchReset s with isLoading := false } ∧
      (performSearchFailure s .otherError).filteredProducts = [] ∧
      (performSearchFailure s .otherError).hasMoreProducts = true ∧
      (performSearchFailure s .abortError).hasMoreProducts = true := by
  intro s
  exact ⟨rfl, rfl, rfl, rfl⟩

/-- C7: after either price re-clamp that reacts to a max-price change —
`resetPriceRange(m)`, or the reactive recompute that fires when a
non-price filter is active — the range starts at 0 and its upper bound
does not exceed the ceiling that triggered the clamp. -/
theorem c7_price_clamp_invariant :
    (∀ (m : Nat) (f : FilterState),
        (resetPriceRange m f).priceRange.1 = 0 ∧ (resetPriceRange m f).priceRange.2 ≤ m) ∧
    (∀ (fm : Nat) (f : FilterState), hasActiveNonPriceFilters f = true →
        (priceRangeRecompute fm f).priceRange.1 = 0 ∧
        (priceRangeRecompute fm f).priceRange.2 ≤ fm) := by
  constructor
  · intro m f
    exact ⟨rfl, le_refl m⟩
  · intro fm f h
    simp [priceRangeRecompute, h, updateFilterPriceRange]

/-- Witness for C7 at concrete inputs: the Nike filter set is active, so
the recompute clamps the range under the new ceiling 250. -/
theorem c7_price_clamp_invariant_witness :
    hasActiveNonPriceFilters nikeFilters = true ∧
    (priceRangeRecompute 250 nikeFilters).priceRange.1 = 0 ∧
    (priceRangeRecompute 250 nikeFilters).priceRange.2 ≤ 250 :=
  ⟨by decide,
    (c7_price_clamp_invariant.2 250 nikeFilters (by decide)).1,
    (c7_price_clamp_invariant.2 250 nikeFilters (by decide)).2⟩

theorem searchEffect_issue_refs (s : SearchEffectState) (q : String) (f : FilterState)
    (s' : SearchEffectState) (i : String)
    (h : searchEffect s q f = (s', some i)) :
    s'.lastSearchedQuery = some (trimStr q) ∧
    s'.lastSearchedFilters = serializeFilters f ∧
    s'.storeUrl = s.storeUrl := by
  simp only [searchEffect] at h
  split at h
  · have hsnd := congrArg Prod.snd h
    simp at hsnd
  · rename_i url hst
    split at h
    · have hsnd := congrArg Prod.snd h
      simp at hsnd
    · split at h
      · have hsnd := congrArg Prod.snd h
        simp at hsnd
      · split at h
        · have hsnd := congrArg Prod.snd h
          simp at hsnd
        · split at h
          · have hfst := congrArg Prod.fst h
            cases hfst
            refine ⟨rfl, rfl, ?_⟩
            split <;> rfl
          · split at h
            · have hfst := congrArg Prod.fst h
              cases hfst
              refine ⟨rfl, rfl, ?_⟩
              split <;> rfl
            · have hsnd := congrArg Prod.snd h
              simp at hsnd

theorem searchEffect_skip_of_refs (s : SearchEffectState) (q : String) (f : FilterState)
    (h1 : s.lastSearchedQuery = some (trimStr q))
    (h2 : s.lastSearchedFilters = serializeFilters f) :
    (searchEffect s q f).2 = none := by
  simp only [searchEffect]
  split
  · rfl
  · split
    · rfl
    · split
      · rfl
      · split
        · rfl
        · rename_i hcond
          simp [h1, h2] at hcond

/-- C2: triggering the search effect twice in succession with the same
debounced query and filter set issues at most one request — before
issuing, the trimmed query and the serialised filters are compared
against the recorded last-searched pair and issuing is skipped entirely
when they match, and a run that does issue records exactly that pair, so
the immediately following identical run is a no-op. -/
theorem c2_dedup_idempotent :
    (∀ (s : SearchEffectState) (q : String) (f : FilterState),
        s.lastSearchedQuery = some (trimStr q) →
        s.lastSearchedFilters = serializeFilters f →
        (searchEffect s q f).2 = none) ∧
    (∀ (s : SearchEffectState) (q : String) (f : FilterState) (i : String),
        (searchEffect s q f).2 = some i →
        (searchEffect (searchEffect s q f).1 q f).2 = none) := by
  constructor
  · exact searchEffect_skip_of_refs
  · intro s q f i h
    have hpair : searchEffect s q f = ((searchEffect s q f).1, some i) := by
      rw [← h]
    obtain ⟨h1, h2, _⟩ := searchEffect_issue_refs s q f (searchEffect s q f).1 i hpair
    exact searchEffect_skip_of_refs _ q f h1 h2

/-- Witness for C2 at concrete inputs: a state already recording the
pair ("shoes", empty filters) makes the effect skip issuing. -/
theorem c2_dedup_idempotent_witness :
    (⟨some demoStoreUrl, false, false, true, false, some (trimStr "shoes"),
        serializeFilters (emptyFilters 10000), 10000⟩ :
      SearchEffectState).lastSearchedQuery = some (trimStr "shoes") ∧
    (⟨some demoStoreUrl, false, false, true, false, some (trimStr "shoes"),
        serializeFilters (emptyFilters 10000), 10000⟩ :
      SearchEffectState).lastSearchedFilters = serializeFilters (emptyFilters 10000) ∧
    (searchEffect
        ⟨some demoStoreUrl, false, false, true, false, some (trimStr "shoes"),
          serializeFilters (emptyFilters 10000), 10000⟩
        "shoes" (emptyFilters 10000)).2 = none :=
  ⟨rfl, rfl,
    c2_dedup_idempotent.1
      ⟨some demoStoreUrl, false, false, true, false, some (trimStr "shoes"),
        serializeFilters (emptyFilters 10000), 10000⟩
      "shoes" (emptyFilters 10000) rfl rfl⟩

/-- C10: the search effect never issues a request for a debounced query
whose trimmed length is 1 or 2; a request is dispatched only when the
trimmed query is empty (fetch-all) or at least 3 characters long. -/
theorem c10_min_query_length :
    (∀ (s : SearchEffectState) (q : String) (f : FilterState),
        1 ≤ (trimStr q).length → (trimStr q).length ≤ 2 →
        (searchEffect s q f).2 = none) ∧
    (∀ (s : SearchEffectState) (q : String) (f : FilterState) (i : String),
        (searchEffect s q f).2 = some i →
        trimStr q = "" ∨ 3 ≤ (trimStr q).length) := by
  constructor
  · intro s q f hlen1 hlen2
    have hne : ¬ trimStr q = "" := by
      intro he
      rw [he] at hlen1
      simp at hlen1
    have hlt : ¬ 3 ≤ (trimStr q).length := by omega
    simp only [searchEffect]
    split
    · rfl
    · split
      · rfl
      · split
        · rfl
        · split
          · rfl
          · simp [hne, hlt]
  · intro s q f i h
    simp only [searchEffect] at h
    split at h
    · simp at h
    · split at h
      · simp at h
      · split at h
        · simp at h
        · split at h
          · simp at h
          · split at h
            · rename_i hempty
              exact Or.inl (by simpa using hempty)
            · split at h
              · rename_i hge
                exact Or.inr hge
              · simp at h

/-- Witness for C10 at concrete inputs: the two-character query "ab"
issues nothing even from a state that would otherwise search. -/
theorem c10_min_query_length_witness :
    1 ≤ (trimStr "ab").length ∧ (trimStr "ab").length ≤ 2 ∧
    (searchEffect
        ⟨some demoStoreUrl, false, false, true, false, none, "", 10000⟩
        "ab" (emptyFilters 10000)).2 = none :=
  ⟨by decide, by decide,
    c10_min_query_length.1
      ⟨some demoStoreUrl, false, false, true, false, none, "", 10000⟩
      "ab" (emptyFilters 10000) (by decide) (by decide)⟩

end Kalifind
